import Mathlib

/-!
Verification development for the NodeFootPrint sampling and attribution
pipeline.  The definitions below are shallow embeddings of the TypeScript
sources: pure functions over explicit state, with bigint modelled as ℤ,
JavaScript numbers modelled as ℚ (plus an explicit JsNum type where
NaN/Infinity semantics matter), and monotone nanosecond timestamps as ℤ
(ℕ inside the scheduler run, where all times are at or after t0).
-/

namespace NodeFootPrint

/-- Embedding of clampDt from RaplReader.ts: clamp a dt in seconds to
[0.2, 5]; non-finite or non-positive inputs become the minimum.  Over ℚ
every value is finite, so only the non-positive branch of the JS
Number.isFinite guard remains. -/
def clampDt (dt : ℚ) : ℚ :=
  if dt ≤ 0 then 1/5
  else if dt < 1/5 then 1/5
  else if dt > 5 then 5
  else dt

/-! ### RAPL hardware energy reader (src/src/sensors/rapl/RaplReader.ts) -/

/-- Per-package persistent state of the RaplReader: last observed
cumulative microjoule value (null before priming / after a failed read)
and the optional wrap limit from max_energy_uj. -/
structure RaplPkgState where
  lastUj : Option ℤ
  maxEnergyUj : Option ℤ
deriving DecidableEq

/-- Per-package result of one non-priming sampling pass: the microjoule
delta contributed to the tick total, the number of wraps detected, whether
the read succeeded, and whether this package had a prior baseline (the
flag that makes the tick primed). -/
structure RaplPkgDelta where
  deltaUj : ℤ
  wraps : ℤ
  ok : Bool
  primed : Bool
deriving DecidableEq

/-- Embedding of the per-package body of RaplReader.sample (non-priming
path).  A failed read leaves the state untouched and contributes nothing;
a read with no prior baseline adopts the current value; otherwise the
delta is current − last, corrected by (maxEnergyUj − last) + current when
it is negative and the wrap limit is known, and only a non-negative
(possibly corrected) delta is contributed. -/
def raplPackageStep (pkg : RaplPkgState) (currentUJ : Option ℤ) :
    RaplPkgDelta × RaplPkgState :=
  match currentUJ with
  | none => (⟨0, 0, false, false⟩, pkg)
  | some cur =>
    match pkg.lastUj with
    | none => (⟨0, 0, true, false⟩, { pkg with lastUj := some cur })
    | some last =>
      let delta0 := cur - last
      let wrapped : ℤ × ℤ :=
        match pkg.maxEnergyUj with
        | some l => if delta0 < 0 then (1, (l - last) + cur) else (0, delta0)
        | none => (0, delta0)
      let contributed := if wrapped.2 ≥ 0 then wrapped.2 else 0
      (⟨contributed, wrapped.1, true, true⟩, { pkg with lastUj := some cur })

/-- Per-package entry of the returned packages array (node and path
strings omitted: they are copied through unchanged and carry no
behaviour). -/
structure RaplPkgOut where
  deltaUj : ℚ
  deltaJ : ℚ
  powerW : ℚ
  wraps : ℤ
  ok : Bool
deriving DecidableEq

/-- Aggregate energy sample returned by RaplReader.sample (and, with an
empty package list, by the empirical fallback reader). -/
structure EnergyOut where
  ok : Bool
  primed : Bool
  deltaTimeTs : ℚ
  deltaUj : ℚ
  deltaJ : ℚ
  powerW : ℚ
  packages : List RaplPkgOut
  wraps : ℤ
deriving DecidableEq

/-- Whole-reader state of the RaplReader. -/
structure RaplState where
  lastNs : Option ℤ
  packages : List RaplPkgState
deriving DecidableEq

/-- Embedding of RaplReader.sample.  The reads list carries the contents
of each package energy_uj file for this tick (none = read failure),
positionally matching the package list.  The first call primes every
package and reports ok/primed with zero deltas; later calls clamp the
time delta and fold raplPackageStep over the packages. -/
def raplSample (st : RaplState) (reads : List (Option ℤ)) (nowNs : ℤ) :
    EnergyOut × RaplState :=
  match st.lastNs with
  | none =>
    let newPkgs := (st.packages.zip reads).map
      (fun pr => { pr.1 with lastUj := pr.2 })
    let pkgOut : List RaplPkgOut := reads.map
      (fun r => ⟨0, 0, 0, 0, r.isSome⟩)
    let ok := reads.any (fun r => r.isSome)
    (⟨ok, false, 0, 0, 0, 0, pkgOut, 0⟩, ⟨some nowNs, newPkgs⟩)
  | some lastNs =>
    let deltaTimeTs := clampDt (((nowNs - lastNs : ℤ) : ℚ) / 1000000000)
    let steps := (st.packages.zip reads).map
      (fun pr => raplPackageStep pr.1 pr.2)
    let newPkgs := steps.map (fun s => s.2)
    let deltas := steps.map (fun s => s.1)
    let totalDeltaUj : ℤ := (deltas.map (fun d => d.deltaUj)).sum
    let wraps : ℤ := (deltas.map (fun d => d.wraps)).sum
    let primed := deltas.any (fun d => d.primed)
    let ok := deltas.any (fun d => d.ok)
    let pkgOut : List RaplPkgOut := deltas.map (fun d =>
      let dUj : ℚ := (d.deltaUj : ℚ)
      let dJ := dUj / 1000000
      ⟨dUj, dJ, if deltaTimeTs > 0 then dJ / deltaTimeTs else 0, d.wraps, d.ok⟩)
    if totalDeltaUj = 0 then
      (⟨ok, primed, deltaTimeTs, 0, 0, 0, pkgOut, wraps⟩, ⟨some nowNs, newPkgs⟩)
    else
      let totalUj : ℚ := (totalDeltaUj : ℚ)
      let totalJ := totalUj / 1000000
      (⟨ok, primed, deltaTimeTs, totalUj, totalJ, totalJ / deltaTimeTs,
        pkgOut, wraps⟩, ⟨some nowNs, newPkgs⟩)

/-! ### Host CPU reader (src/src/sensors/cpus/CpuReader.ts) -/

/-- Aggregate counters of the cpu line of /proc/stat, as parsed by
parseProcStat (missing trailing fields already defaulted to 0). -/
structure ProcStatAgg where
  user : ℤ
  nice : ℤ
  system : ℤ
  idle : ℤ
  iowait : ℤ
  irq : ℤ
  softirq : ℤ
  steal : ℤ
deriving DecidableEq

/-- Derived idle/active/total aggregates. -/
structure CpuTotal where
  idle : ℤ
  active : ℤ
  total : ℤ
deriving DecidableEq

/-- Embedding of computeCpuUtilization: a null aggregate is replaced by
all-zero counters; idle = idle + iowait, active = the six active
counters, total = idle + active. -/
def computeCpuUtilization (snapshot : Option ProcStatAgg) : CpuTotal :=
  let s := snapshot.getD ⟨0, 0, 0, 0, 0, 0, 0, 0⟩
  let idle := s.idle + s.iowait
  let active := s.user + s.nice + s.system + s.irq + s.softirq + s.steal
  ⟨idle, active, idle + active⟩

/-- Persistent state of the CpuReader. -/
structure CpuState where
  lastNs : Option ℤ
  lastTotal : Option ℤ
  lastIdle : Option ℤ
deriving DecidableEq

/-- Successful host CPU sample. -/
structure CpuOk where
  primed : Bool
  internalClampedDt : ℚ
  cpuUtilization : ℚ
  deltaIdleTicks : ℤ
  deltaActiveTicks : ℤ
  deltaTotalTicks : ℤ
deriving DecidableEq

/-- Result of CpuReader.sample: either an error reason or a sample. -/
inductive CpuOut where
  | err (error : String)
  | ok (s : CpuOk)
deriving DecidableEq

/-- Embedding of CpuReader.sample.  The statRead argument carries the
outcome of parseProcStat on this tick: an error reason, or a snapshot
whose aggregate line may be absent.  The first call (any null piece of
state) records baselines and returns an unprimed zero sample; later
calls diff the tracked total and idle aggregates, gate every returned
delta on deltaTotal > 0, and clamp the utilisation ratio to [0, 1]. -/
def cpuSample (st : CpuState) (statRead : Except String (Option ProcStatAgg))
    (nowNs : ℤ) : CpuOut × CpuState :=
  match statRead with
  | .error e => (.err e, st)
  | .ok aggregate =>
    let stats := computeCpuUtilization aggregate
    match st.lastNs, st.lastTotal, st.lastIdle with
    | some lastNs, some lastTotal, some lastIdle =>
      let deltaNs := nowNs - lastNs
      let deltaTotal := stats.total - lastTotal
      let deltaIdle := stats.idle - lastIdle
      let st2 : CpuState := ⟨some nowNs, some stats.total, some stats.idle⟩
      let internalClampedDt := clampDt (((deltaNs : ℤ) : ℚ) / 1000000000)
      let rawU : ℚ := ((deltaTotal - deltaIdle : ℤ) : ℚ) / ((deltaTotal : ℤ) : ℚ)
      let cpuUtilization : ℚ :=
        if deltaTotal > 0 then
          if rawU < 0 then 0 else if rawU > 1 then 1 else rawU
        else 0
      let deltaTotalTicks := if deltaTotal > 0 then deltaTotal else 0
      let deltaActiveTicks := if deltaTotal > 0 then deltaTotal - deltaIdle else 0
      let deltaIdleTicks := if deltaTotal > 0 then deltaIdle else 0
      (.ok ⟨true, internalClampedDt, cpuUtilization,
            deltaIdleTicks, deltaActiveTicks, deltaTotalTicks⟩, st2)
    | _, _, _ =>
      (.ok ⟨false, 0, 0, 0, 0, 0⟩,
       ⟨some nowNs, some stats.total, some stats.idle⟩)

/-! ### Process CPU reader
(src/packages/energy-core/src/sensors/cpus/ProcessCpuReader.ts) -/

/-- Fields of a successfully parsed /proc/pid/stat snapshot that the
sampler consumes (parsePidStatFile defaults missing tick fields to 0n
via the nullish coalescing in sample, folded in here as plain ℤ). -/
structure PSnap where
  pid : ℤ
  utime : ℤ
  stime : ℤ
  starttime : ℤ
deriving DecidableEq

/-- Persistent state of the ProcessCpuReader, with the source field
names. -/
structure PState where
  last_app_ticks : Option ℤ
  last_start_time_ticks : Option ℤ
  primed : Bool
deriving DecidableEq

/-- Result of ProcessCpuReader.sample: an error reason or a sample. -/
inductive POut where
  | err (error : String)
  | ok (primed : Bool) (pid : ℤ) (deltaActive : ℤ)
deriving DecidableEq

/-- Embedding of the success path of ProcessCpuReader.sample on a parsed
snapshot: prime when not primed; detect a restart when the stored start
time exists and differs from the current one (resetting state with
primed := false); otherwise report the non-negative utime+stime delta
with primed unchanged (true). -/
def processSampleSnap (st : PState) (snap : PSnap) : POut × PState :=
  let current_app_ticks := snap.utime + snap.stime
  let current_start_time_ticks := snap.starttime
  if st.primed = false then
    (.ok false snap.pid 0,
     ⟨some current_app_ticks, some current_start_time_ticks, true⟩)
  else
    let restart : Bool :=
      match st.last_start_time_ticks with
      | some ls => decide (current_start_time_ticks ≠ ls)
      | none => false
    if restart then
      (.ok false snap.pid 0,
       ⟨some current_app_ticks, some current_start_time_ticks, false⟩)
    else
      let delta0 := current_app_ticks - (st.last_app_ticks.getD 0)
      let delta_active_ticks := if delta0 < 0 then 0 else delta0
      (.ok st.primed snap.pid delta_active_ticks,
       { st with last_app_ticks := some current_app_ticks })

/-- Embedding of ProcessCpuReader.sample including the read/parse failure
path, which returns the mapped error reason and leaves state alone. -/
def processSample (st : PState) (statRead : Except String PSnap) :
    POut × PState :=
  match statRead with
  | .error e => (.err e, st)
  | .ok snap => processSampleSnap st snap

/-! ### Fixed-rate scheduler
(src/packages/nodefootprint/src/config/config.ts, fixedRateTicks) -/

/-- Tick event yielded by fixedRateTicks.  All times are monotone
nanoseconds at or after t0, so ℕ models the bigint arithmetic (the
sources never produce negative values here: start ≥ deadline ≥ t0,
lateness and skippedPeriods are clamped differences). -/
structure TickTiming where
  tickId : ℕ
  scheduleIndex : ℕ
  periodNs : ℕ
  t0Ns : ℕ
  deadlineNs : ℕ
  startNs : ℕ
  dtNs : ℕ
  latenessNs : ℕ
  skippedPeriods : ℕ
deriving DecidableEq

/-- Embedding of the coalesce next-index computation of fixedRateTicks:
behind = (startNs − t0Ns) / periodNs (bigint division, i.e. floor on the
non-negative operands), candidate behind + 1, never receding below
scheduleIndex + 1. -/
def coalesceNext (periodNs t0Ns scheduleIndex startNs : ℕ) : ℕ :=
  let idealNext := scheduleIndex + 1
  let behind := (startNs - t0Ns) / periodNs
  let nextScheduleIndex := behind + 1
  if nextScheduleIndex < idealNext then idealNext else nextScheduleIndex

/-- Deterministic run of the fixedRateTicks generator under the coalesce
policy: each iteration sleeps until the grid deadline (waking exactly
then, or immediately when already late), yields the tick, and the
consumer body of the given duration delays the next iteration.  The
fuel argument bounds the number of produced ticks. -/
def schedRun (periodNs t0Ns : ℕ) (body : ℕ → ℕ) :
    ℕ → ℕ → ℕ → ℕ → Option ℕ → List TickTiming
  | 0, _, _, _, _ => []
  | fuel + 1, scheduleIndex, tickId, clock, prevStartNs =>
    let deadlineNs := t0Ns + scheduleIndex * periodNs
    let startNs := max clock deadlineNs
    let dtNs := match prevStartNs with
      | none => 0
      | some p => startNs - p
    let latenessNs := startNs - deadlineNs
    let next := coalesceNext periodNs t0Ns scheduleIndex startNs
    let tick : TickTiming :=
      ⟨tickId, scheduleIndex, periodNs, t0Ns, deadlineNs, startNs, dtNs,
       latenessNs, next - (scheduleIndex + 1)⟩
    tick :: schedRun periodNs t0Ns body fuel next (tickId + 1)
      (startNs + body tickId) (some startNs)

/-- Concrete overrun scenario of the spec: a 600 ms consumer body at tick
id 10, negligible bodies elsewhere. -/
def c5Body (tickId : ℕ) : ℕ := if tickId = 10 then 600000000 else 0

/-- The scenario run: period 200 ms, t0 = 0, thirteen produced ticks. -/
def c5Run : List TickTiming := schedRun 200000000 0 c5Body 13 0 0 0 none

/-! ### Scheduler period validation
(src/packages/nodefootprint/src/config/config.ts, fixedRateTicks head) -/

/-- JavaScript number with the values whose semantics the validation
depends on kept explicit. -/
inductive JsNum where
  | nan
  | posInf
  | negInf
  | num (q : ℚ)
deriving DecidableEq

/-- Number.isFinite on a JavaScript number. -/
def JsNum.isFiniteJs : JsNum → Bool
  | .num _ => true
  | _ => false

/-- JavaScript truthiness of a number: NaN and 0 are falsy, everything
else (including the infinities) is truthy. -/
def JsNum.truthy : JsNum → Bool
  | .nan => false
  | .num q => decide (q ≠ 0)
  | _ => true

/-- JavaScript comparison periodMs <= 0 (false on NaN). -/
def JsNum.leZero : JsNum → Bool
  | .nan => false
  | .posInf => false
  | .negInf => true
  | .num q => decide (q ≤ 0)

/-- Embedding of the guard condition of fixedRateTicks exactly as
written in the source: Number.isFinite(periodMs || periodMs <= 0).
The JS or-operator yields the left number when truthy, otherwise the
boolean periodMs <= 0; Number.isFinite of a boolean is false. -/
def fixedRateTicksGuardArg (periodMs : JsNum) : Option JsNum :=
  if periodMs.truthy then some periodMs else none

/-- Whether fixedRateTicks throws invalid_period for this period: the
negation of Number.isFinite applied to the or-expression (a boolean
right operand is never a finite number). -/
def fixedRateTicksRejects (periodMs : JsNum) : Bool :=
  !(match fixedRateTicksGuardArg periodMs with
    | some v => v.isFiniteJs
    | none => false)

/-! ### Audit accumulator
(src/packages/nodefootprint/src/audit/AuditAccumulator.ts) -/

/-- Per-tick input to the accumulator; absent values are ignored. -/
structure AccumulatorSample where
  hostCpuEnergyJoules : Option ℚ
  hostCpuActiveTicks : Option ℤ
  processCpuActiveTicks : Option ℤ
deriving DecidableEq

/-- Totals returned by finalize. -/
structure AccumulatorTotals where
  durationSeconds : ℚ
  hostCpuEnergyJoules : ℚ
  totalHostCpuActiveTicks : ℤ
  totalProcessCpuActiveTicks : ℤ
deriving DecidableEq

/-- Mutable state of an AuditAccumulator instance.  The class carries no
finalisation flag: these five fields are its entire state. -/
structure AccState where
  startTimeNs : ℤ
  endTimeNs : Option ℤ
  hostCpuEnergyJoules : ℚ
  totalHostCpuActiveTicks : ℤ
  totalProcessCpuActiveTicks : ℤ
deriving DecidableEq

/-- Embedding of AuditAccumulator.push: each present and strictly
positive component is added to its running sum. -/
def accPush (st : AccState) (sample : AccumulatorSample) : AccState :=
  let st1 := match sample.hostCpuEnergyJoules with
    | some j => if j > 0 then
        { st with hostCpuEnergyJoules := st.hostCpuEnergyJoules + j } else st
    | none => st
  let st2 := match sample.hostCpuActiveTicks with
    | some t => if t > 0 then
        { st1 with totalHostCpuActiveTicks := st1.totalHostCpuActiveTicks + t }
      else st1
    | none => st1
  match sample.processCpuActiveTicks with
  | some t => if t > 0 then
      { st2 with totalProcessCpuActiveTicks :=
          st2.totalProcessCpuActiveTicks + t }
    else st2
  | none => st2

/-- Embedding of AuditAccumulator.finalize: read the stored end
timestamp (falling back to the current clock), compute the duration and
return the totals.  The method mutates nothing and has no failure path,
so its embedding is a pure function of the unchanged state. -/
def accFinalize (st : AccState) (clockNowNs : ℤ) : AccumulatorTotals :=
  let endNs := st.endTimeNs.getD clockNowNs
  ⟨((endNs - st.startTimeNs : ℤ) : ℚ) / 1000000000,
   st.hostCpuEnergyJoules,
   st.totalHostCpuActiveTicks,
   st.totalProcessCpuActiveTicks⟩

/-! ### Audit report computation (src/unnamed/part_002, audit) -/

/-- Share and attribution block of the final audit report, computed from
the finalized totals exactly as in the audit controller: an unguarded
BigInt-to-Number division when the host tick sum is positive, zero
otherwise, with no clamping. -/
def processCpuEnergyShare (totals : AccumulatorTotals) : ℚ :=
  if totals.totalHostCpuActiveTicks > 0 then
    ((totals.totalProcessCpuActiveTicks : ℤ) : ℚ) /
      ((totals.totalHostCpuActiveTicks : ℤ) : ℚ)
  else 0

/-- Attributed process energy of the report: host energy times share. -/
def processCpuEnergyJoules (totals : AccumulatorTotals) : ℚ :=
  totals.hostCpuEnergyJoules * processCpuEnergyShare totals

/-! ### RAPL probe
(src/packages/nodefootprint/src/config/config.ts, raplProbe) -/

/-- Probe status. -/
inductive RaplStatus where
  | OK
  | DEGRADED
  | FAILED
deriving DecidableEq

/-- Check that the pattern occurs as a contiguous run at the head of the
character list. -/
def charsStartWith : List Char → List Char → Bool
  | [], _ => true
  | _ :: _, [] => false
  | p :: ps, c :: cs => p = c && charsStartWith ps cs

/-- Substring containment on character lists, the semantics of the
JavaScript String.prototype.includes used on the name file content. -/
def charsContain (pat : List Char) : List Char → Bool
  | [] => charsStartWith pat []
  | c :: cs => charsStartWith pat (c :: cs) || charsContain pat cs

/-- Filesystem view of one immediate entry of the powercap root, as the
probe observes it: its dirent kind, the trimmed content of its name file
(none when the read throws), and whether its energy_uj file passed the
read-access check. -/
structure ProbeEntry where
  isDirOrSymlink : Bool
  nameContent : Option String
  energyReadable : Bool
deriving DecidableEq

/-- An entry contributes a package exactly when it is a directory or
symlink, its name file was readable, and the content contains the
substring package- (the continue statements of the probe loop). -/
def isPackageEntry (e : ProbeEntry) : Bool :=
  e.isDirOrSymlink &&
    (match e.nameContent with
     | some n => charsContain ("package-".toList) n.toList
     | none => false)

/-- Embedding of the status computation of raplProbe: an unreadable root
directory is FAILED; zero matching packages is FAILED; otherwise OK when
some package has a readable energy_uj and DEGRADED when none has. -/
def raplProbeStatus (root : Option (List ProbeEntry)) : RaplStatus :=
  match root with
  | none => .FAILED
  | some entries =>
    let pkgs := entries.filter isPackageEntry
    if pkgs.length = 0 then .FAILED
    else if pkgs.any (fun p => p.energyReadable) then .OK
    else .DEGRADED

/-! ### Empirical fallback energy reader
(src/packages/energy-core/src/sensors/rapl/EmpiricalEnergyReader.ts) -/

/-- Configuration/derived state of the EmpiricalEnergyReader, plus the
embedded host CPU reader state. -/
structure EmpState where
  isReady : Bool
  pidleWatts : Option ℚ
  pmaxWatts : Option ℚ
  tdpWatts : Option ℚ
  idleFraction : ℚ
  maxFraction : ℚ
  cpu : CpuState
deriving DecidableEq

/-- The isPositive guard of the source on an optional number (over ℚ the
finiteness check is vacuous). -/
def optIsPositive (v : Option ℚ) : Bool :=
  match v with
  | some q => decide (0 < q)
  | none => false

/-- Embedding of EmpiricalEnergyReader.sample.  A reader that is not
ready returns nothing.  Otherwise the internal CpuReader is sampled
first; a failed CPU sub-sample yields an energy sample with ok false and
primed true and all-zero content, an unprimed sub-sample yields ok true
and primed false, and a primed one evaluates the linear power model at
the utilisation over the clamped dt. -/
def empiricalSample (st : EmpState)
    (statRead : Except String (Option ProcStatAgg)) (nowNs : ℤ) :
    Option EnergyOut × EmpState :=
  if st.isReady = false then (none, st)
  else
    let cpuRes := cpuSample st.cpu statRead nowNs
    let st2 := { st with cpu := cpuRes.2 }
    match cpuRes.1 with
    | .err _ => (some ⟨false, true, 0, 0, 0, 0, [], 0⟩, st2)
    | .ok c =>
      if c.primed = false then (some ⟨true, false, 0, 0, 0, 0, [], 0⟩, st2)
      else
        let cpuLoad := c.cpuUtilization
        let dt := c.internalClampedDt
        let pick : ℚ × ℚ :=
          if optIsPositive st.pidleWatts && optIsPositive st.pmaxWatts then
            (st.pidleWatts.getD 0, st.pmaxWatts.getD 0)
          else
            let tdp := st.tdpWatts.getD 0
            (tdp * st.idleFraction, tdp * st.maxFraction)
        let powerW := pick.1 + (pick.2 - pick.1) * cpuLoad
        let deltaJ := powerW * dt
        let deltaUj := deltaJ * 1000000
        (some ⟨true, true, dt, deltaUj, deltaJ, powerW, [], 0⟩, st2)

/-! ### Per-tick sample collection
(src/packages/energy-core/src/sampling/sampling.ts, collectSamples) -/

/-- Optional reader states handed to collectSamples. -/
structure Samplers where
  energyReader : Option RaplState
  cpuReader : Option CpuState
  processCpuReader : Option PState
deriving DecidableEq

/-- Contents of the pseudo-files each reader consumes during one tick. -/
structure SampleEnv where
  energyReads : List (Option ℤ)
  procStat : Except String (Option ProcStatAgg)
  pidStat : Except String PSnap

/-- The three per-tick samples. -/
structure Samples where
  energy : Option EnergyOut
  cpu : Option CpuOut
  processCpu : Option POut
deriving DecidableEq

/-- Embedding of collectSamples: the energy reader and the host CPU
reader are invoked with the tick timestamp nowNs; the process CPU reader
is invoked with no timestamp at all, exactly as in the source call
processCpuReader.sample(). -/
def collectSamples (samplers : Samplers) (env : SampleEnv) (nowNs : ℤ) :
    Samples :=
  ⟨samplers.energyReader.map (fun st => (raplSample st env.energyReads nowNs).1),
   samplers.cpuReader.map (fun st => (cpuSample st env.procStat nowNs).1),
   samplers.processCpuReader.map (fun st => (processSample st env.pidStat).1)⟩

/-- Clamped dt carried by a host CPU sample, when it succeeded. -/
def cpuOutDt : CpuOut → Option ℚ
  | .err _ => none
  | .ok s => some s.internalClampedDt

/-! ## Theorems settling the claims -/

/-- C1.  The audit report computes process_cpu_energy_share as an
unclamped division: an accumulator run in which the host CPU sample is
unprimed on a tick where the process sample is ok (host sum 5, process
sum 10, host energy 2 J) finalises to a share of 2, violating the
claimed clamp to [0, 1], and the attributed process energy (4 J) exceeds
the host energy. -/
theorem c1_share_unclamped_eval :
    processCpuEnergyShare
        (accFinalize
          (accPush (accPush ⟨0, some 3000000000, 0, 0, 0⟩ ⟨none, some 5, none⟩)
            ⟨some 2, none, some 10⟩) 0) = 2 ∧
    ¬ processCpuEnergyShare
        (accFinalize
          (accPush (accPush ⟨0, some 3000000000, 0, 0, 0⟩ ⟨none, some 5, none⟩)
            ⟨some 2, none, some 10⟩) 0) ≤ 1 ∧
    processCpuEnergyJoules
        (accFinalize
          (accPush (accPush ⟨0, some 3000000000, 0, 0, 0⟩ ⟨none, some 5, none⟩)
            ⟨some 2, none, some 10⟩) 0) = 4 := by
  norm_num [accPush, accFinalize, processCpuEnergyShare, processCpuEnergyJoules]

/-- C2.  In hardware-mode energy sampling, a package with a prior
baseline last and a known wrap limit l whose new reading cur is smaller
than last reports the wrap-corrected delta (l − last) + cur, counts
exactly one wrap, and stores the new reading as its baseline (under the
data-model invariant 0 ≤ cur and last ≤ l). -/
theorem c2_wrap_delta (l last cur : ℤ) (hcur : 0 ≤ cur) (hlt : cur < last)
    (hle : last ≤ l) :
    (raplPackageStep ⟨some last, some l⟩ (some cur)).1.deltaUj =
      (l - last) + cur ∧
    (raplPackageStep ⟨some last, some l⟩ (some cur)).1.wraps = 1 ∧
    (raplPackageStep ⟨some last, some l⟩ (some cur)).2.lastUj = some cur := by
  have h0 : cur - last < 0 := by omega
  have h1 : (0 : ℤ) ≤ l - last + cur := by omega
  simp [raplPackageStep, h0, h1]

/-- C2 witness: the concrete boundary case of the claim, wrap limit 100,
baseline 95 = 100 − 5, new reading 10, yielding delta 15 and one wrap. -/
theorem c2_wrap_delta_witness :
    (raplPackageStep ⟨some 95, some 100⟩ (some 10)).1.deltaUj =
      (100 - 95) + 10 ∧
    (raplPackageStep ⟨some 95, some 100⟩ (some 10)).1.wraps = 1 ∧
    (raplPackageStep ⟨some 95, some 100⟩ (some 10)).2.lastUj = some 10 :=
  c2_wrap_delta 100 95 10 (by decide) (by decide) (by decide)

/-- C3 counterexample.  A non-priming host CPU sample is not always
non-negative in every component: from baselines (idle 10, total 20), a
snapshot with user 5 and idle 25 (idle counter regressing relative to the
active one while the grand total advances to 30) yields
deltaActiveTicks = −5 < 0. -/
theorem c3_negative_delta_counterexample :
    (cpuSample ⟨some 0, some 20, some 10⟩
        (.ok (some ⟨5, 0, 0, 25, 0, 0, 0, 0⟩)) 1000000000).1 =
      .ok ⟨true, 1, 0, 15, -5, 10⟩ ∧ (-5 : ℤ) < 0 := by
  refine ⟨?_, by norm_num⟩
  norm_num [cpuSample, computeCpuUtilization, clampDt]

/-- C3 amended.  For every non-priming host CPU sample, deltaTotalTicks
is non-negative, and a regression of the grand-total counter yields all
three deltas zero; when the grand total advances, deltaIdleTicks and
deltaActiveTicks are the raw differences and may be negative. -/
theorem c3_amended_total_nonneg (st : CpuState) (agg : ProcStatAgg)
    (now ln lt li : ℤ) (hn : st.lastNs = some ln) (ht : st.lastTotal = some lt)
    (hi : st.lastIdle = some li) :
    ∃ s, (cpuSample st (.ok (some agg)) now).1 = .ok s ∧
      s.primed = true ∧
      0 ≤ s.deltaTotalTicks ∧
      ((computeCpuUtilization (some agg)).total ≤ lt →
        s.deltaIdleTicks = 0 ∧ s.deltaActiveTicks = 0 ∧
          s.deltaTotalTicks = 0) := by
  obtain ⟨a, b, c⟩ := st
  cases hn; cases ht; cases hi
  refine ⟨_, rfl, rfl, ?_, ?_⟩
  · dsimp only
    split <;> omega
  · intro hreg
    dsimp only
    refine ⟨?_, ?_, ?_⟩ <;> {rw [if_neg]; omega}

/-- C3 amended witness: a concrete non-priming sample with a grand-total
regression, where all three deltas are zero. -/
theorem c3_amended_total_nonneg_witness :
    ∃ s, (cpuSample ⟨some 0, some 50, some 10⟩
        (.ok (some ⟨10, 0, 0, 20, 0, 0, 0, 0⟩)) 1000000000).1 = .ok s ∧
      s.primed = true ∧
      0 ≤ s.deltaTotalTicks ∧
      ((computeCpuUtilization
          (some ⟨10, 0, 0, 20, 0, 0, 0, 0⟩)).total ≤ 50 →
        s.deltaIdleTicks = 0 ∧ s.deltaActiveTicks = 0 ∧
          s.deltaTotalTicks = 0) :=
  c3_amended_total_nonneg ⟨some 0, some 50, some 10⟩ ⟨10, 0, 0, 20, 0, 0, 0, 0⟩
    1000000000 0 50 10 rfl rfl rfl

/-- C4 counterexample.  After the restart-detection sample (starttime
1000 → 2000) the immediately following successful sample does not resume
normal deltas: it is a re-priming sample returning primed = false with
deltaActive = 0, not the claimed primed = true with
deltaActive = 180 − 150 = 30. -/
theorem c4_restart_counterexample :
    (processSampleSnap
        (processSampleSnap
          (processSampleSnap ⟨none, none, false⟩ ⟨42, 100, 0, 1000⟩).2
          ⟨42, 150, 0, 2000⟩).2
        ⟨42, 180, 0, 2000⟩).1 = .ok false 42 0 ∧
    (processSampleSnap
        (processSampleSnap
          (processSampleSnap ⟨none, none, false⟩ ⟨42, 100, 0, 1000⟩).2
          ⟨42, 150, 0, 2000⟩).2
        ⟨42, 180, 0, 2000⟩).1 ≠ .ok true 42 30 := by
  decide

/-- C4 amended.  In primed state, a sample whose starttime differs from
the stored value resets the state and returns ok with primed = false and
deltaActive = 0; the immediately following successful sample re-primes
(again primed = false, deltaActive = 0, recording a fresh baseline), and
normal deltas (primed = true, deltaActive = max 0 of the tick
difference) resume only on the second sample after the restart, computed
from that re-primed baseline. -/
theorem c4_restart_reprimes (st : PState) (snap2 snap3 snap4 : PSnap)
    (ls : ℤ) (hp : st.primed = true) (hs : st.last_start_time_ticks = some ls)
    (hr : snap2.starttime ≠ ls) (hc : snap4.starttime = snap3.starttime) :
    (processSampleSnap st snap2).1 = .ok false snap2.pid 0 ∧
    (processSampleSnap st snap2).2 =
      ⟨some (snap2.utime + snap2.stime), some snap2.starttime, false⟩ ∧
    (processSampleSnap (processSampleSnap st snap2).2 snap3).1 =
      .ok false snap3.pid 0 ∧
    (processSampleSnap
        (processSampleSnap (processSampleSnap st snap2).2 snap3).2
        snap4).1 =
      .ok true snap4.pid
        (max 0 ((snap4.utime + snap4.stime) - (snap3.utime + snap3.stime))) := by
  have h2 : processSampleSnap st snap2 =
      (.ok false snap2.pid 0,
       ⟨some (snap2.utime + snap2.stime), some snap2.starttime, false⟩) := by
    simp [processSampleSnap, hp, hs, hr]
  have h3 : processSampleSnap
      (⟨some (snap2.utime + snap2.stime), some snap2.starttime, false⟩ : PState)
      snap3 =
      (.ok false snap3.pid 0,
       ⟨some (snap3.utime + snap3.stime), some snap3.starttime, true⟩) := by
    simp [processSampleSnap]
  refine ⟨by rw [h2], by rw [h2], by rw [h2, h3], ?_⟩
  rw [h2, h3]
  simp only [processSampleSnap, hc]
  norm_num
  split <;> omega

/-- C4 amended witness: a concrete restart at starttime 2000 from a
primed state anchored at starttime 1000, followed by the re-priming
sample and the resumed delta of max 0 (200 − 180) = 20. -/
theorem c4_restart_reprimes_witness :
    (processSampleSnap ⟨some 50, some 1000, true⟩ ⟨42, 150, 0, 2000⟩).1 =
      .ok false 42 0 ∧
    (processSampleSnap ⟨some 50, some 1000, true⟩ ⟨42, 150, 0, 2000⟩).2 =
      ⟨some (150 + 0), some 2000, false⟩ ∧
    (processSampleSnap
        (processSampleSnap ⟨some 50, some 1000, true⟩ ⟨42, 150, 0, 2000⟩).2
        ⟨42, 180, 0, 2000⟩).1 = .ok false 42 0 ∧
    (processSampleSnap
        (processSampleSnap
          (processSampleSnap ⟨some 50, some 1000, true⟩
            ⟨42, 150, 0, 2000⟩).2 ⟨42, 180, 0, 2000⟩).2
        ⟨42, 200, 0, 2000⟩).1 =
      .ok true 42 (max 0 ((200 + 0) - (180 + 0))) :=
  c4_restart_reprimes ⟨some 50, some 1000, true⟩ ⟨42, 150, 0, 2000⟩
    ⟨42, 180, 0, 2000⟩ ⟨42, 200, 0, 2000⟩ 1000 rfl rfl (by decide) rfl

/-- C5 counterexample.  In the concrete coalesce scenario (period
200 ms, 600 ms body at tick 10), tick 11 does report skippedPeriods = 2,
but its deadline sits at grid slot 11, not at the claimed slot 13: the
late tick itself keeps the next grid deadline and the skip happens after
it. -/
theorem c5_deadline_counterexample :
    (c5Run.get? 11).map (fun t => t.skippedPeriods) = some 2 ∧
    (c5Run.get? 11).map (fun t => t.deadlineNs) = some (11 * 200000000) ∧
    (c5Run.get? 11).map (fun t => t.deadlineNs) ≠ some (13 * 200000000) := by
  decide

/-- C5 amended.  Under the coalesce policy the next schedule index after
every produced tick equals max(schedule_index + 1,
floor((start_ns − t0_ns) / P) + 1), and the produced tick's own
skippedPeriods field records the grid slots dropped between it and the
following tick; in the concrete scenario (P = 200 ms, 600 ms body at
tick 10) tick 11 fires once with skippedPeriods = 2 and deadline at grid
slot 11, the dropped slots being 12 and 13, and tick 12's deadline lands
at grid slot 14. -/
theorem c5_coalesce_amended :
    (∀ periodNs t0Ns scheduleIndex startNs : ℕ,
      coalesceNext periodNs t0Ns scheduleIndex startNs =
        max (scheduleIndex + 1) ((startNs - t0Ns) / periodNs + 1)) ∧
    (c5Run.get? 11).map
        (fun t => (t.scheduleIndex, t.skippedPeriods, t.deadlineNs)) =
      some (11, 2, 11 * 200000000) ∧
    (c5Run.get? 12).map (fun t => (t.tickId, t.scheduleIndex, t.deadlineNs)) =
      some (12, 14, 14 * 200000000) := by
  refine ⟨?_, by decide, by decide⟩
  intro p t i s
  simp only [coalesceNext]
  generalize (s - t) / p = d
  split <;> omega

/-- C6.  AuditAccumulator.finalize carries no finalisation flag and no
failure path: a second call on the same instance does not fail with
already_finalised, it simply returns the same totals again (evaluated
here on the totals of end-to-end scenario 3 of the spec). -/
theorem c6_double_finalize_eval :
    accFinalize ⟨0, some 3000000000, 49753/1000, 381, 37⟩ 5000000000 =
      accFinalize ⟨0, some 3000000000, 49753/1000, 381, 37⟩ 9000000000 ∧
    accFinalize ⟨0, some 3000000000, 49753/1000, 381, 37⟩ 9000000000 =
      ⟨3, 49753/1000, 381, 37⟩ := by
  norm_num [accFinalize]

/-- C7.  The probe status is OK exactly when the root listing is
readable, some entry is a package entry, and some package entry has a
readable energy_uj; DEGRADED exactly when package entries exist but none
is readable; FAILED exactly when the root is unreadable or no entry is a
package entry. -/
theorem c7_probe_status_cases (root : Option (List ProbeEntry)) :
    (raplProbeStatus root = .OK ↔ ∃ entries, root = some entries ∧
        (∃ e ∈ entries, isPackageEntry e = true) ∧
        (∃ e ∈ entries, isPackageEntry e = true ∧ e.energyReadable = true)) ∧
    (raplProbeStatus root = .DEGRADED ↔ ∃ entries, root = some entries ∧
        (∃ e ∈ entries, isPackageEntry e = true) ∧
        (∀ e ∈ entries, isPackageEntry e = true → e.energyReadable = false)) ∧
    (raplProbeStatus root = .FAILED ↔ root = none ∨ ∃ entries,
        root = some entries ∧ ∀ e ∈ entries, isPackageEntry e = false) := by
  cases root with
  | none => simp [raplProbeStatus]
  | some es =>
    have hmem : ∀ e, e ∈ es.filter isPackageEntry ↔
        e ∈ es ∧ isPackageEntry e = true := fun e => List.mem_filter
    by_cases h0 : (es.filter isPackageEntry).length = 0
    · have hnil : es.filter isPackageEntry = [] := List.length_eq_zero.mp h0
      have hnone : ∀ e ∈ es, isPackageEntry e = false := by
        intro e he
        by_contra hne
        have : e ∈ es.filter isPackageEntry :=
          (hmem e).mpr ⟨he, Bool.of_not_eq_false hne⟩
        simp [hnil] at this
      have hst : raplProbeStatus (some es) = .FAILED := by
        simp [raplProbeStatus, h0]
      refine ⟨?_, ?_, ?_⟩
      · simp only [hst]
        constructor
        · intro h; cases h
        · rintro ⟨entries, heq, ⟨e, he, hpkg⟩, -⟩
          cases heq
          rw [hnone e he] at hpkg
          cases hpkg
      · simp only [hst]
        constructor
        · intro h; cases h
        · rintro ⟨entries, heq, ⟨e, he, hpkg⟩, -⟩
          cases heq
          rw [hnone e he] at hpkg
          cases hpkg
      · simp only [hst]
        constructor
        · intro _
          exact Or.inr ⟨es, rfl, hnone⟩
        · intro _; trivial
    · have hex : ∃ e ∈ es, isPackageEntry e = true := by
        cases hcase : es.filter isPackageEntry with
        | nil => exact absurd (by simp [hcase]) h0
        | cons x xs =>
          have hx : x ∈ es.filter isPackageEntry := by
            rw [hcase]; exact List.mem_cons_self x xs
          exact ⟨x, ((hmem x).mp hx).1, ((hmem x).mp hx).2⟩
      by_cases hr : (es.filter isPackageEntry).any
          (fun p => p.energyReadable) = true
      · have hst : raplProbeStatus (some es) = .OK := by
          simp [raplProbeStatus, h0, hr]
        obtain ⟨w, hw⟩ := List.any_eq_true.mp hr
        have hwmem := (hmem w).mp hw.1
        refine ⟨?_, ?_, ?_⟩
        · simp only [hst]
          exact ⟨fun _ => ⟨es, rfl, hex, w, hwmem.1, hwmem.2, hw.2⟩,
                 fun _ => trivial⟩
        · simp only [hst]
          constructor
          · intro h; cases h
          · rintro ⟨entries, heq, -, hall⟩
            cases heq
            rw [hall w hwmem.1 hwmem.2] at hw
            cases hw.2
        · simp only [hst]
          constructor
          · intro h; cases h
          · rintro (h | ⟨entries, heq, hall⟩)
            · cases h
            · cases heq
              obtain ⟨e, he, hpkg⟩ := hex
              rw [hall e he] at hpkg
              cases hpkg
      · have hst : raplProbeStatus (some es) = .DEGRADED := by
          simp [raplProbeStatus, h0, hr]
        have hall : ∀ e ∈ es, isPackageEntry e = true →
            e.energyReadable = false := by
          intro e he hpkg
          by_contra hne
          exact hr (List.any_eq_true.mpr
            ⟨e, (hmem e).mpr ⟨he, hpkg⟩, Bool.of_not_eq_false hne⟩)
        refine ⟨?_, ?_, ?_⟩
        · simp only [hst]
          constructor
          · intro h; cases h
          · rintro ⟨entries, heq, -, e, he, hpkg, hread⟩
            cases heq
            rw [hall e he hpkg] at hread
            cases hread
        · simp only [hst]
          exact ⟨fun _ => ⟨es, rfl, hex, hall⟩, fun _ => trivial⟩
        · simp only [hst]
          constructor
          · intro h; cases h
          · rintro (h | ⟨entries, heq, hnone⟩)
            · cases h
            · cases heq
              obtain ⟨e, he, hpkg⟩ := hex
              rw [hnone e he] at hpkg
              cases hpkg

/-- C8.  The fixedRateTicks period guard, written
Number.isFinite(periodMs || periodMs <= 0) in the source, rejects 0,
NaN and both infinities but accepts every negative finite period (here
−5 ms), contradicting the required rejection of all non-positive
periods; a positive finite period (200 ms) is accepted. -/
theorem c8_validation_eval :
    fixedRateTicksRejects (.num (-5)) = false ∧
    fixedRateTicksRejects (.num 0) = true ∧
    fixedRateTicksRejects .nan = true ∧
    fixedRateTicksRejects .posInf = true ∧
    fixedRateTicksRejects .negInf = true ∧
    fixedRateTicksRejects (.num 200) = false := by
  norm_num [fixedRateTicksRejects, fixedRateTicksGuardArg, JsNum.truthy,
    JsNum.isFiniteJs]

/-- C9 counterexample.  Within one tick, the energy reader and the host
CPU reader do observe the tick timestamp (their clamped dt moves from 1 s
to 3 s when the timestamp moves), but the process CPU reader's sample is
invoked with no timestamp and its result is unchanged: not all three
readers use tick.start_ns for a delta-time computation. -/
theorem c9_process_timestamp_counterexample :
    ((collectSamples
        ⟨some ⟨some 0, [⟨some 500, none⟩]⟩, some ⟨some 0, some 0, some 0⟩,
         some ⟨some 20, some 7, true⟩⟩
        ⟨[some 1000], .ok (some ⟨10, 0, 0, 10, 0, 0, 0, 0⟩),
         .ok ⟨42, 50, 0, 7⟩⟩ 1000000000).cpu.bind cpuOutDt = some 1) ∧
    ((collectSamples
        ⟨some ⟨some 0, [⟨some 500, none⟩]⟩, some ⟨some 0, some 0, some 0⟩,
         some ⟨some 20, some 7, true⟩⟩
        ⟨[some 1000], .ok (some ⟨10, 0, 0, 10, 0, 0, 0, 0⟩),
         .ok ⟨42, 50, 0, 7⟩⟩ 3000000000).cpu.bind cpuOutDt = some 3) ∧
    ((collectSamples
        ⟨some ⟨some 0, [⟨some 500, none⟩]⟩, some ⟨some 0, some 0, some 0⟩,
         some ⟨some 20, some 7, true⟩⟩
        ⟨[some 1000], .ok (some ⟨10, 0, 0, 10, 0, 0, 0, 0⟩),
         .ok ⟨42, 50, 0, 7⟩⟩ 1000000000).energy.map
        (fun e => e.deltaTimeTs) = some 1) ∧
    ((collectSamples
        ⟨some ⟨some 0, [⟨some 500, none⟩]⟩, some ⟨some 0, some 0, some 0⟩,
         some ⟨some 20, some 7, true⟩⟩
        ⟨[some 1000], .ok (some ⟨10, 0, 0, 10, 0, 0, 0, 0⟩),
         .ok ⟨42, 50, 0, 7⟩⟩ 3000000000).energy.map
        (fun e => e.deltaTimeTs) = some 3) ∧
    (collectSamples
        ⟨some ⟨some 0, [⟨some 500, none⟩]⟩, some ⟨some 0, some 0, some 0⟩,
         some ⟨some 20, some 7, true⟩⟩
        ⟨[some 1000], .ok (some ⟨10, 0, 0, 10, 0, 0, 0, 0⟩),
         .ok ⟨42, 50, 0, 7⟩⟩ 1000000000).processCpu =
      (collectSamples
        ⟨some ⟨some 0, [⟨some 500, none⟩]⟩, some ⟨some 0, some 0, some 0⟩,
         some ⟨some 20, some 7, true⟩⟩
        ⟨[some 1000], .ok (some ⟨10, 0, 0, 10, 0, 0, 0, 0⟩),
         .ok ⟨42, 50, 0, 7⟩⟩ 3000000000).processCpu := by
  refine ⟨?_, ?_, ?_, ?_, rfl⟩ <;>
    norm_num [collectSamples, raplSample, cpuSample, computeCpuUtilization,
      cpuOutDt, raplPackageStep, clampDt]

/-- C9 amended.  Within a tick, collectSamples hands the same timestamp
nowNs to the energy reader and the host CPU reader, and each computes
its clamped dt from it; the process CPU reader is called with no
timestamp, and its sample is invariant under the tick timestamp. -/
theorem c9_shared_timestamp_amended (eSt : RaplState) (cSt : CpuState)
    (pSt : PState) (env : SampleEnv) (t t2 le lc lt li : ℤ)
    (agg : Option ProcStatAgg) (he : eSt.lastNs = some le)
    (hc : cSt.lastNs = some lc) (ht : cSt.lastTotal = some lt)
    (hi : cSt.lastIdle = some li) (hs : env.procStat = .ok agg) :
    ((collectSamples ⟨some eSt, some cSt, some pSt⟩ env t).energy.map
        (fun e => e.deltaTimeTs) =
      some (clampDt (((t - le : ℤ) : ℚ) / 1000000000))) ∧
    ((collectSamples ⟨some eSt, some cSt, some pSt⟩ env t).cpu.bind cpuOutDt =
      some (clampDt (((t - lc : ℤ) : ℚ) / 1000000000))) ∧
    (collectSamples ⟨some eSt, some cSt, some pSt⟩ env t).processCpu =
      (collectSamples ⟨some eSt, some cSt, some pSt⟩ env t2).processCpu := by
  obtain ⟨eLast, ePkgs⟩ := eSt
  obtain ⟨cLast, cTotal, cIdle⟩ := cSt
  cases he; cases hc; cases ht; cases hi
  refine ⟨?_, ?_, rfl⟩
  · dsimp only [collectSamples, Option.map, raplSample]
    split <;> rfl
  · dsimp only [collectSamples, Option.map]
    rw [hs]
    rfl

/-- C9 amended witness: the shared-timestamp property evaluated at a
concrete primed pair of readers and a concrete environment. -/
theorem c9_shared_timestamp_amended_witness :
    ((collectSamples
        ⟨some ⟨some 0, [⟨some 500, none⟩]⟩, some ⟨some 0, some 0, some 0⟩,
         some ⟨some 20, some 7, true⟩⟩
        ⟨[some 1000], .ok (some ⟨10, 0, 0, 10, 0, 0, 0, 0⟩),
         .ok ⟨42, 50, 0, 7⟩⟩ 2000000000).energy.map
        (fun e => e.deltaTimeTs) =
      some (clampDt (((2000000000 - 0 : ℤ) : ℚ) / 1000000000))) ∧
    ((collectSamples
        ⟨some ⟨some 0, [⟨some 500, none⟩]⟩, some ⟨some 0, some 0, some 0⟩,
         some ⟨some 20, some 7, true⟩⟩
        ⟨[some 1000], .ok (some ⟨10, 0, 0, 10, 0, 0, 0, 0⟩),
         .ok ⟨42, 50, 0, 7⟩⟩ 2000000000).cpu.bind cpuOutDt =
      some (clampDt (((2000000000 - 0 : ℤ) : ℚ) / 1000000000))) ∧
    (collectSamples
        ⟨some ⟨some 0, [⟨some 500, none⟩]⟩, some ⟨some 0, some 0, some 0⟩,
         some ⟨some 20, some 7, true⟩⟩
        ⟨[some 1000], .ok (some ⟨10, 0, 0, 10, 0, 0, 0, 0⟩),
         .ok ⟨42, 50, 0, 7⟩⟩ 2000000000).processCpu =
      (collectSamples
        ⟨some ⟨some 0, [⟨some 500, none⟩]⟩, some ⟨some 0, some 0, some 0⟩,
         some ⟨some 20, some 7, true⟩⟩
        ⟨[some 1000], .ok (some ⟨10, 0, 0, 10, 0, 0, 0, 0⟩),
         .ok ⟨42, 50, 0, 7⟩⟩ 5000000000).processCpu :=
  c9_shared_timestamp_amended ⟨some 0, [⟨some 500, none⟩]⟩
    ⟨some 0, some 0, some 0⟩ ⟨some 20, some 7, true⟩
    ⟨[some 1000], .ok (some ⟨10, 0, 0, 10, 0, 0, 0, 0⟩), .ok ⟨42, 50, 0, 7⟩⟩
    2000000000 5000000000 0 0 0 0 (some ⟨10, 0, 0, 10, 0, 0, 0, 0⟩)
    rfl rfl rfl rfl rfl

/-- C10.  In fallback mode, whenever the internal host CPU sub-sample
fails, a ready empirical reader returns ok = false with primed = true,
zero dt and deltas, an empty package list and zero wraps — for every
reader state, including one on which no successful read has ever
occurred. -/
theorem c10_fallback_error_tick (st : EmpState) (e : String) (now : ℤ)
    (hready : st.isReady = true) :
    (empiricalSample st (.error e) now).1 =
      some ⟨false, true, 0, 0, 0, 0, [], 0⟩ := by
  simp [empiricalSample, cpuSample, hready]

/-- C10 witness: a fresh, never-primed fallback reader configured with
p_idle = 8 W and p_max = 65 W returns the ok = false, primed = true
error tick when the stat file read fails. -/
theorem c10_fallback_error_tick_witness :
    (empiricalSample
        ⟨true, some 8, some 65, none, 7/100, 55/100, ⟨none, none, none⟩⟩
        (.error "file_not_found") 0).1 =
      some ⟨false, true, 0, 0, 0, 0, [], 0⟩ :=
  c10_fallback_error_tick
    ⟨true, some 8, some 65, none, 7/100, 55/100, ⟨none, none, none⟩⟩
    "file_not_found" 0 rfl

end NodeFootPrint

